import Mathlib

/-!
Verification of the astronomical core of the `astroskies` weather dashboard
(`src/astro-weather.jsx`): the inline `SunCalc` object (`getMoonIllumination`,
`getTimes`) and the two pure classifiers `conditionLabel` and `moonPhaseLabel`.

Modelling conventions (ECMAScript semantics over idealized real arithmetic):
* JS numbers are modelled as `ℝ` (the finite, non-NaN range; double rounding is
  idealized away).  Where NaN can actually arise and matters — `Math.acos` on an
  argument outside `[-1, 1]`, and NaN forecast values fed to `conditionLabel` —
  it is modelled explicitly: by the `JSDate.invalid` constructor for Dates whose
  time value is NaN, and by the `none` case of `JNum` for classifier inputs.
* `Math.acos` never throws in JS: outside `[-1, 1]` it returns NaN, which then
  propagates through arithmetic and `new Date(NaN)` to an Invalid Date.  No
  expression inside the `try` block of `getTimes`'s inner `getTime` can throw
  (arithmetic, `Math.acos` and `Date` construction are total), so the
  `catch \x7b return null; \x7d` branch is dead code; `getTime` is therefore
  modelled as always returning `some` pair, with `JSDate.invalid` components in
  the circumpolar (out-of-domain) case.
* `a % b` in JS is the remainder truncated toward zero (sign of the dividend);
  it is modelled by `jsMod` below.
* `new Date(2000, 0, 1, 12)` uses the *local* time zone: its epoch-millisecond
  value is `946728000000 - tzMin * 60000` where `tzMin` is the environment's
  offset east of UTC in minutes (946728000000 ms = 2000-01-01T12:00:00 UTC).
  The ambient offset is made an explicit parameter `tzMin` of the moon model.
* The ±8.64e15 ms range cap of JS `Date` is not modelled (idealization).
-/

/-- A JS `Date`: either a valid instant (epoch milliseconds) or an Invalid
Date, i.e. one whose internal time value is NaN. -/
inductive JSDate
  | invalid
  | valid (ms : ℝ)

/-- Result record of `SunCalc.getTimes`.  Each field models an optionally
absent (`undefined`) JS value: `none` is what the `?.` chain would produce had
the inner `getTime` returned `null`. -/
structure SunTimes where
  sunrise : Option JSDate
  sunset : Option JSDate
  astronomicalDawn : Option JSDate
  astronomicalDusk : Option JSDate

/-- The `\x7b rise, set \x7d` pair built inside `getTimes`'s local `getTime`. -/
structure RiseSet where
  rise : JSDate
  set : JSDate

/-- Result record of `SunCalc.getMoonIllumination`. -/
structure MoonIllum where
  fraction : ℝ
  phase : ℝ

/-- A JS number as consumed by the classifier `conditionLabel`: either NaN
(`none`) or a finite decimal value, modelled as a rational. -/
def JNum : Type := Option ℚ

/-- JS comparison `x <= c` on a possibly-NaN left operand: any comparison with
NaN evaluates to false. -/
def jsLe : JNum → ℚ → Bool
  | some x, c => decide (x ≤ c)
  | none, _ => false

/-- JS comparison `x >= c` on a possibly-NaN left operand: any comparison with
NaN evaluates to false. -/
def jsGe : JNum → ℚ → Bool
  | some x, c => decide (c ≤ x)
  | none, _ => false

/-- The `\x7b label, color, icon \x7d` record returned by `conditionLabel`. -/
structure CondInfo where
  label : String
  color : String
  icon : String
  deriving DecidableEq

/-- Embedding of `conditionLabel` (src/astro-weather.jsx):
cascading threshold rules on cloud cover, seeing and transparency, first
matching rule wins. -/
def conditionLabel (cloudcover seeing transparency : JNum) : CondInfo :=
  if jsLe cloudcover 10 && jsGe seeing 7 && jsGe transparency 7 then
    ⟨"Excellent", "#00ffc8", "✦"⟩
  else if jsLe cloudcover 25 && jsGe seeing 5 && jsGe transparency 5 then
    ⟨"Good", "#a3f07f", "◉"⟩
  else if jsLe cloudcover 50 then ⟨"Fair", "#f0d97f", "◎"⟩
  else if jsLe cloudcover 75 then ⟨"Poor", "#f0a97f", "◑"⟩
  else ⟨"Cloudy", "#f07f7f", "●"⟩

/-- The `\x7b label, icon \x7d` record returned by `moonPhaseLabel`. -/
structure PhaseInfo where
  label : String
  icon : String
  deriving DecidableEq

/-- Embedding of `moonPhaseLabel` (src/astro-weather.jsx): cascade of
strict upper-bound comparisons on the phase value. -/
def moonPhaseLabel (phase : ℚ) : PhaseInfo :=
  if phase < 0.03 ∨ phase > 0.97 then ⟨"New Moon", "🌑"⟩
  else if phase < 0.22 then ⟨"Waxing Crescent", "🌒"⟩
  else if phase < 0.28 then ⟨"First Quarter", "🌓"⟩
  else if phase < 0.47 then ⟨"Waxing Gibbous", "🌔"⟩
  else if phase < 0.53 then ⟨"Full Moon", "🌕"⟩
  else if phase < 0.72 then ⟨"Waning Gibbous", "🌖"⟩
  else if phase < 0.78 then ⟨"Last Quarter", "🌗"⟩
  else ⟨"Waning Crescent", "🌘"⟩

namespace SunCalc

/-- Embedding of `SunCalc.toRad`. -/
noncomputable def toRad (d : ℝ) : ℝ := d * Real.pi / 180

/-- The constant `J1970` of `getTimes`. -/
def J1970 : ℝ := 2440588

/-- The constant `J2000` of `getTimes`. -/
def J2000 : ℝ := 2451545

/-- The constant `dayMs` of `getTimes`. -/
def dayMs : ℝ := 86400000

/-- Embedding of the local `toJulian` of `getTimes`. -/
noncomputable def toJulian (d : ℝ) : ℝ := d / dayMs - 0.5 + J1970

/-- The epoch-millisecond value wrapped in `new Date(...)` by the local
`fromJulian` of `getTimes`. -/
noncomputable def fromJulianMs (j : ℝ) : ℝ := (j + 0.5 - J1970) * dayMs

/-- Embedding of the local `fromJulian` of `getTimes`: `new Date(ms)` with a
finite (non-NaN) millisecond value yields a valid Date. -/
noncomputable def fromJulian (j : ℝ) : JSDate := JSDate.valid (fromJulianMs j)

/-- Embedding of the local `toDays` of `getTimes`. -/
noncomputable def toDays (d : ℝ) : ℝ := toJulian d - J2000

end SunCalc

/-- C7: the Julian-day conversions of `getTimes` satisfy their stated closed
forms (`toJulian t = t / 86400000 - 0.5 + 2440588`,
`fromJulian j = new Date((j + 0.5 - 2440588) * 86400000)`) and are mutually
inverse in exact real arithmetic: `fromJulian (toJulian t)` is a valid Date
whose epoch-millisecond value is exactly `t`, for every instant `t`. -/
theorem fromJulian_toJulian_roundTrip (t j : ℝ) :
    SunCalc.toJulian t = t / 86400000 - 0.5 + 2440588 ∧
    SunCalc.fromJulianMs j = (j + 0.5 - 2440588) * 86400000 ∧
    SunCalc.fromJulian (SunCalc.toJulian t) = JSDate.valid t ∧
    SunCalc.fromJulianMs (SunCalc.toJulian t) = t := by
  have h : SunCalc.fromJulianMs (SunCalc.toJulian t) = t := by
    unfold SunCalc.fromJulianMs SunCalc.toJulian SunCalc.J1970 SunCalc.dayMs
    ring
  exact ⟨rfl, rfl, by unfold SunCalc.fromJulian; rw [h], h⟩

/-- C5: `conditionLabel` evaluates its threshold rules in strict priority
order with the first match winning.  On non-NaN inputs: the label is
"Excellent" iff cloud ≤ 10 ∧ seeing ≥ 7 ∧ transparency ≥ 7; otherwise "Good"
iff cloud ≤ 25 ∧ seeing ≥ 5 ∧ transparency ≥ 5; otherwise "Fair" iff
cloud ≤ 50 (seeing and transparency ignored); otherwise "Poor" iff cloud ≤ 75;
otherwise "Cloudy".  Moreover (10,7,7) yields "Excellent" and (11,7,7) yields
a label other than "Excellent". -/
theorem conditionLabel_priority_thresholds (c s t : ℚ) :
    ((conditionLabel (some c) (some s) (some t)).label = "Excellent" ↔
      (c ≤ 10 ∧ 7 ≤ s ∧ 7 ≤ t)) ∧
    ((conditionLabel (some c) (some s) (some t)).label = "Good" ↔
      (¬(c ≤ 10 ∧ 7 ≤ s ∧ 7 ≤ t) ∧ (c ≤ 25 ∧ 5 ≤ s ∧ 5 ≤ t))) ∧
    ((conditionLabel (some c) (some s) (some t)).label = "Fair" ↔
      (¬(c ≤ 10 ∧ 7 ≤ s ∧ 7 ≤ t) ∧ ¬(c ≤ 25 ∧ 5 ≤ s ∧ 5 ≤ t) ∧ c ≤ 50)) ∧
    ((conditionLabel (some c) (some s) (some t)).label = "Poor" ↔
      (¬(c ≤ 10 ∧ 7 ≤ s ∧ 7 ≤ t) ∧ ¬(c ≤ 25 ∧ 5 ≤ s ∧ 5 ≤ t) ∧ ¬(c ≤ 50) ∧
        c ≤ 75)) ∧
    ((conditionLabel (some c) (some s) (some t)).label = "Cloudy" ↔
      (¬(c ≤ 10 ∧ 7 ≤ s ∧ 7 ≤ t) ∧ ¬(c ≤ 25 ∧ 5 ≤ s ∧ 5 ≤ t) ∧ ¬(c ≤ 50) ∧
        ¬(c ≤ 75))) ∧
    (conditionLabel (some 10) (some 7) (some 7)).label = "Excellent" ∧
    (conditionLabel (some 11) (some 7) (some 7)).label ≠ "Excellent" := by
  refine ⟨?_, ?_, ?_, ?_, ?_, by decide, by decide⟩ <;>
    · unfold conditionLabel jsLe jsGe
      split_ifs <;> simp_all

/-- C10: `conditionLabel` is total also on NaN inputs — it always returns one
of the five labels — and a NaN cloud-cover value makes every threshold
comparison false, so the result is the "Cloudy" record. -/
theorem conditionLabel_total_nan_cloudy (c s t : JNum) (q : ℚ) :
    ((conditionLabel c s t).label = "Excellent" ∨
      (conditionLabel c s t).label = "Good" ∨
      (conditionLabel c s t).label = "Fair" ∨
      (conditionLabel c s t).label = "Poor" ∨
      (conditionLabel c s t).label = "Cloudy") ∧
    conditionLabel none s t = ⟨"Cloudy", "#f07f7f", "●"⟩ ∧
    jsLe none q = false ∧ jsGe none q = false := by
  refine ⟨?_, ?_, rfl, rfl⟩
  · unfold conditionLabel
    split_ifs <;> simp
  · unfold conditionLabel jsLe
    simp

set_option maxHeartbeats 2000000 in
/-- C6: `moonPhaseLabel` partitions its domain into the eight named-phase
buckets with exclusive upper boundaries: New Moon iff phase < 0.03 or
phase > 0.97, Waxing Crescent iff 0.03 ≤ phase < 0.22, First Quarter iff
0.22 ≤ phase < 0.28, Waxing Gibbous iff 0.28 ≤ phase < 0.47, Full Moon iff
0.47 ≤ phase < 0.53, Waning Gibbous iff 0.53 ≤ phase < 0.72, Last Quarter iff
0.72 ≤ phase < 0.78, and Waning Crescent iff 0.78 ≤ phase ≤ 0.97; in
particular phase 0.50 yields "Full Moon" and phase 0.53 yields
"Waning Gibbous". -/
theorem moonPhaseLabel_buckets (p : ℚ) :
    ((moonPhaseLabel p).label = "New Moon" ↔ (p < 0.03 ∨ p > 0.97)) ∧
    ((moonPhaseLabel p).label = "Waxing Crescent" ↔ (0.03 ≤ p ∧ p < 0.22)) ∧
    ((moonPhaseLabel p).label = "First Quarter" ↔ (0.22 ≤ p ∧ p < 0.28)) ∧
    ((moonPhaseLabel p).label = "Waxing Gibbous" ↔ (0.28 ≤ p ∧ p < 0.47)) ∧
    ((moonPhaseLabel p).label = "Full Moon" ↔ (0.47 ≤ p ∧ p < 0.53)) ∧
    ((moonPhaseLabel p).label = "Waning Gibbous" ↔ (0.53 ≤ p ∧ p < 0.72)) ∧
    ((moonPhaseLabel p).label = "Last Quarter" ↔ (0.72 ≤ p ∧ p < 0.78)) ∧
    ((moonPhaseLabel p).label = "Waning Crescent" ↔ (0.78 ≤ p ∧ p ≤ 0.97)) ∧
    (moonPhaseLabel 0.50).label = "Full Moon" ∧
    (moonPhaseLabel 0.53).label = "Waning Gibbous" := by
  refine ⟨?_, ?_, ?_, ?_, ?_, ?_, ?_, ?_, ?half, ?fiftyThree⟩
  case half => unfold moonPhaseLabel; norm_num
  case fiftyThree => unfold moonPhaseLabel; norm_num
  all_goals
    unfold moonPhaseLabel
    split_ifs with h1 h2 h3 h4 h5 h6 h7 <;> simp_all <;>
      first
        | linarith
        | assumption
        | (rcases h1 with h1 | h1 <;> linarith)
        | (constructor <;> linarith)
        | (constructor <;> (rcases h1 with h1 | h1) <;> linarith)
        | (intro hx <;> (try rcases h1 with h1 | h1) <;> linarith)
        | (intro hx hy <;> (try rcases h1 with h1 | h1) <;> linarith)

/-- Truncation toward zero, as used by the ECMAScript `%` operator. -/
noncomputable def jsTrunc (x : ℝ) : ℝ :=
  if 0 ≤ x then ((⌊x⌋ : ℤ) : ℝ) else ((⌈x⌉ : ℤ) : ℝ)

/-- The ECMAScript remainder operator `a % b` on finite operands with
`b ≠ 0`: the remainder has the sign of the dividend and absolute value less
than `|b|`; `a % b = a - b * trunc (a / b)`. -/
noncomputable def jsMod (a b : ℝ) : ℝ := a - b * jsTrunc (a / b)

theorem jsTrunc_intCast (x : ℝ) : ∃ k : ℤ, jsTrunc x = (k : ℝ) := by
  unfold jsTrunc
  split_ifs
  · exact ⟨⌊x⌋, rfl⟩
  · exact ⟨⌈x⌉, rfl⟩

theorem jsMod_sub_int (a b : ℝ) : ∃ k : ℤ, a - jsMod a b = b * (k : ℝ) := by
  obtain ⟨k, hk⟩ := jsTrunc_intCast (a / b)
  exact ⟨k, by unfold jsMod; rw [hk]; ring⟩

theorem jsMod_lt (a : ℝ) {b : ℝ} (hb : 0 < b) : jsMod a b < b := by
  unfold jsMod jsTrunc
  split_ifs with h
  · have h2 : a / b < (⌊a / b⌋ : ℝ) + 1 := Int.lt_floor_add_one (a / b)
    have h3 : a < ((⌊a / b⌋ : ℝ) + 1) * b := (div_lt_iff hb).mp h2
    linarith
  · have h2 : a / b ≤ (⌈a / b⌉ : ℝ) := Int.le_ceil (a / b)
    have h3 : a ≤ (⌈a / b⌉ : ℝ) * b := (div_le_iff hb).mp h2
    linarith

theorem jsMod_neg_lt {a b : ℝ} (hb : 0 < b) : -b < jsMod a b := by
  unfold jsMod jsTrunc
  split_ifs with h
  · have h2 : (⌊a / b⌋ : ℝ) ≤ a / b := Int.floor_le (a / b)
    have h3 : (⌊a / b⌋ : ℝ) * b ≤ a := (le_div_iff hb).mp h2
    linarith
  · have h5 : (⌈a / b⌉ : ℝ) - 1 < a / b := by
      have := Int.ceil_lt_add_one (a / b)
      linarith
    have h4 : ((⌈a / b⌉ : ℝ) - 1) * b < a := by
      have h6 := mul_lt_mul_of_pos_right h5 hb
      rwa [div_mul_cancel₀ a (ne_of_gt hb)] at h6
    linarith

theorem jsMod_nonneg {a b : ℝ} (hb : 0 < b) (ha : 0 ≤ a) : 0 ≤ jsMod a b := by
  unfold jsMod jsTrunc
  rw [if_pos (div_nonneg ha (le_of_lt hb))]
  have h2 : (⌊a / b⌋ : ℝ) ≤ a / b := Int.floor_le (a / b)
  have h3 : (⌊a / b⌋ : ℝ) * b ≤ a := (le_div_iff hb).mp h2
  linarith

/-- The double-mod normalization `((x % b) + b) % b` lands in `[0, b)` for
every real `x` when `b > 0`. -/
theorem jsMod_normalize_mem {b : ℝ} (hb : 0 < b) (x : ℝ) :
    0 ≤ jsMod (jsMod x b + b) b ∧ jsMod (jsMod x b + b) b < b := by
  have h1 : 0 ≤ jsMod x b + b := by linarith [jsMod_neg_lt (a := x) hb]
  exact ⟨jsMod_nonneg hb h1, jsMod_lt _ hb⟩

/-- The double-mod normalization changes its input by an integer multiple of
the modulus. -/
theorem jsMod_normalize_sub_int (b x : ℝ) :
    ∃ k : ℤ, x - jsMod (jsMod x b + b) b = b * (k : ℝ) := by
  obtain ⟨k1, hk1⟩ := jsMod_sub_int x b
  obtain ⟨k2, hk2⟩ := jsMod_sub_int (jsMod x b + b) b
  refine ⟨k1 + k2 - 1, ?_⟩
  push_cast
  nlinarith [hk1, hk2]

namespace SunCalc

/-- Epoch-millisecond value of `new Date(2000, 0, 1, 12)`: *local* noon of
2000-01-01 in the environment's ambient time zone, whose offset east of UTC
is `tzMin` minutes.  946728000000 ms is 2000-01-01T12:00:00 UTC. -/
def localNoonJan2000 (tzMin : ℝ) : ℝ := 946728000000 - tzMin * 60000

/-- The value `d` computed by `getMoonIllumination`: days elapsed from local
noon of 2000-01-01 to the instant `t` (epoch ms). -/
noncomputable def moonD (t tzMin : ℝ) : ℝ := (t - localNoonJan2000 tzMin) / 86400000

/-- The solar mean anomaly `M` of `getMoonIllumination`. -/
noncomputable def moonM (t tzMin : ℝ) : ℝ := toRad (357.5291 + 0.98560028 * moonD t tzMin)

/-- The moon mean longitude `ML` of `getMoonIllumination`. -/
noncomputable def moonML (t tzMin : ℝ) : ℝ := toRad (218.3165 + 13.17639648 * moonD t tzMin)

/-- The lunar perigee longitude `L2` of `getMoonIllumination`. -/
noncomputable def moonL2 (t tzMin : ℝ) : ℝ := toRad (282.9404 + 4.70935e-5 * moonD t tzMin)

/-- The empirical correction term `eviction` of `getMoonIllumination`,
embedded with the exact (numerically unusual) structure of the source. -/
noncomputable def eviction (t tzMin : ℝ) : ℝ :=
  1.2739 * Real.sin (toRad (2 * ((moonML t tzMin - moonL2 t tzMin) * 180 / Real.pi)) -
    moonM t tzMin * 180 / Real.pi * toRad 1)

/-- The un-normalized phase angle `ML - L2 + toRad(eviction * 10)` of
`getMoonIllumination` (the argument of the double-mod expression). -/
noncomputable def moonInner (t tzMin : ℝ) : ℝ :=
  moonML t tzMin - moonL2 t tzMin + toRad (eviction t tzMin * 10)

/-- The normalized phase angle (the local `phase` of `getMoonIllumination`):
the double-mod expression `((inner % 2π) + 2π) % 2π`. -/
noncomputable def phaseAngle (t tzMin : ℝ) : ℝ :=
  jsMod (jsMod (moonInner t tzMin) (2 * Real.pi) + 2 * Real.pi) (2 * Real.pi)

/-- Embedding of `SunCalc.getMoonIllumination`.  `t` is the argument instant
as epoch milliseconds; `tzMin` is the ambient time-zone offset east of UTC in
minutes, read by the local-time `Date` constructor of the reference epoch. -/
noncomputable def getMoonIllumination (t tzMin : ℝ) : MoonIllum :=
  ⟨(1 - Real.cos (phaseAngle t tzMin)) / 2, phaseAngle t tzMin / (2 * Real.pi)⟩

end SunCalc

/-- C3: for every finite instant (and every ambient time-zone offset), the
internally computed phase angle of `getMoonIllumination` is normalized into
`[0, 2π)` by the double-mod expression, the returned `phase` equals
`phaseAngle / 2π` and lies in `[0, 1)`, and the returned `fraction` equals
`(1 - cos phaseAngle) / 2` and lies in `[0, 1]`. -/
theorem getMoonIllumination_ranges (t tzMin : ℝ) :
    0 ≤ SunCalc.phaseAngle t tzMin ∧ SunCalc.phaseAngle t tzMin < 2 * Real.pi ∧
    (SunCalc.getMoonIllumination t tzMin).phase =
      SunCalc.phaseAngle t tzMin / (2 * Real.pi) ∧
    (SunCalc.getMoonIllumination t tzMin).fraction =
      (1 - Real.cos (SunCalc.phaseAngle t tzMin)) / 2 ∧
    0 ≤ (SunCalc.getMoonIllumination t tzMin).phase ∧
    (SunCalc.getMoonIllumination t tzMin).phase < 1 ∧
    0 ≤ (SunCalc.getMoonIllumination t tzMin).fraction ∧
    (SunCalc.getMoonIllumination t tzMin).fraction ≤ 1 := by
  have h2pi : (0 : ℝ) < 2 * Real.pi := by positivity
  obtain ⟨h0, h1⟩ := jsMod_normalize_mem h2pi (SunCalc.moonInner t tzMin)
  have hphase : SunCalc.phaseAngle t tzMin < 2 * Real.pi := h1
  have hcos1 : Real.cos (SunCalc.phaseAngle t tzMin) ≤ 1 := Real.cos_le_one _
  have hcos2 : -1 ≤ Real.cos (SunCalc.phaseAngle t tzMin) := Real.neg_one_le_cos _
  refine ⟨h0, hphase, rfl, rfl, ?_, ?_, ?_, ?_⟩
  · exact div_nonneg h0 (le_of_lt h2pi)
  · exact (div_lt_one h2pi).mpr hphase
  · simp only [SunCalc.getMoonIllumination]
    linarith
  · simp only [SunCalc.getMoonIllumination]
    linarith

/-- The phase angle only changes by integer multiples of `2π` under the
double-mod normalization. -/
theorem moonInner_sub_phaseAngle_int (t tzMin : ℝ) :
    ∃ k : ℤ, SunCalc.moonInner t tzMin - SunCalc.phaseAngle t tzMin =
      2 * Real.pi * (k : ℝ) := by
  exact jsMod_normalize_sub_int (2 * Real.pi) (SunCalc.moonInner t tzMin)

/-- The eviction correction of `getMoonIllumination` simplifies (exactly, by
cancelling the degree/radian round trips of the source expression) to
`1.2739 * sin (toRad (-486.7769 + 25.367098493 * d))`. -/
theorem eviction_closed_form (t tzMin : ℝ) :
    SunCalc.eviction t tzMin =
      1.2739 * Real.sin (SunCalc.toRad (-486.7769 + 25.367098493 * SunCalc.moonD t tzMin)) := by
  unfold SunCalc.eviction SunCalc.moonML SunCalc.moonL2 SunCalc.moonM SunCalc.toRad
  have hpi : Real.pi ≠ 0 := Real.pi_ne_zero
  congr 1
  congr 1
  field_simp
  ring

/-- The difference `ML - L2` of `getMoonIllumination` in closed form. -/
theorem moonML_sub_moonL2 (t tzMin : ℝ) :
    SunCalc.moonML t tzMin - SunCalc.moonL2 t tzMin =
      SunCalc.toRad (-64.6239 + 13.1763493865 * SunCalc.moonD t tzMin) := by
  unfold SunCalc.moonML SunCalc.moonL2 SunCalc.toRad
  ring

/-- The concrete day offset used to exhibit the time-zone dependence of
`getMoonIllumination`: chosen so that the eviction argument lands at
`90 - 25.367098493/48` degrees for offset 0 and, after the `+1/24` day shift
induced by a 60-minute time-zone change, at the mirror angle
`90 + 25.367098493/48` degrees, which has the same sine. -/
noncomputable def dzeroTz : ℝ := (90 - 25.367098493 / 48 + 486.7769) / 25.367098493

/-- The concrete instant (epoch ms) used to exhibit the time-zone dependence
of `getMoonIllumination` (about 2000-01-24). -/
noncomputable def tInstTz : ℝ := 946728000000 + 86400000 * dzeroTz

theorem moonD_tInstTz_zero : SunCalc.moonD tInstTz 0 = dzeroTz := by
  unfold SunCalc.moonD tInstTz SunCalc.localNoonJan2000
  field_simp

theorem moonD_tInstTz_sixty : SunCalc.moonD tInstTz 60 = dzeroTz + 1 / 24 := by
  unfold SunCalc.moonD tInstTz SunCalc.localNoonJan2000
  rw [div_eq_iff (by norm_num : (86400000 : ℝ) ≠ 0)]
  ring

theorem bdeg_dzeroTz :
    -486.7769 + 25.367098493 * dzeroTz = 90 - 25.367098493 / 48 := by
  unfold dzeroTz
  rw [mul_div_cancel₀]
  · ring
  · norm_num

theorem eviction_tInstTz_eq :
    SunCalc.eviction tInstTz 0 = SunCalc.eviction tInstTz 60 := by
  rw [eviction_closed_form, eviction_closed_form, moonD_tInstTz_zero, moonD_tInstTz_sixty]
  have h0 : -486.7769 + 25.367098493 * dzeroTz = 90 - 25.367098493 / 48 := bdeg_dzeroTz
  have h1 : -486.7769 + 25.367098493 * (dzeroTz + 1 / 24) = 90 + 25.367098493 / 48 := by
    have : -486.7769 + 25.367098493 * (dzeroTz + 1 / 24) =
        (-486.7769 + 25.367098493 * dzeroTz) + 25.367098493 / 24 := by ring
    rw [this, h0]
    ring
  rw [h0, h1]
  have hmirror : SunCalc.toRad (90 + 25.367098493 / 48) =
      Real.pi - SunCalc.toRad (90 - 25.367098493 / 48) := by
    unfold SunCalc.toRad
    ring
  rw [hmirror, Real.sin_pi_sub]

theorem moonInner_tInstTz_diff :
    SunCalc.moonInner tInstTz 60 - SunCalc.moonInner tInstTz 0 =
      SunCalc.toRad (13.1763493865 / 24) := by
  unfold SunCalc.moonInner
  rw [moonML_sub_moonL2, moonML_sub_moonL2, moonD_tInstTz_zero, moonD_tInstTz_sixty,
    ← eviction_tInstTz_eq]
  unfold SunCalc.toRad
  ring

/-- At the concrete instant `tInstTz`, ambient offsets 0 and 60 minutes give
different normalized phase angles: the un-normalized angles differ by
`toRad (13.1763493865 / 24)`, which is not an integer multiple of `2π`. -/
theorem phaseAngle_tInstTz_ne :
    SunCalc.phaseAngle tInstTz 0 ≠ SunCalc.phaseAngle tInstTz 60 := by
  intro h
  obtain ⟨k0, hk0⟩ := moonInner_sub_phaseAngle_int tInstTz 0
  obtain ⟨k1, hk1⟩ := moonInner_sub_phaseAngle_int tInstTz 60
  have hdiff := moonInner_tInstTz_diff
  have heq : SunCalc.toRad (13.1763493865 / 24) = 2 * Real.pi * ((k1 - k0 : ℤ) : ℝ) := by
    push_cast
    have : SunCalc.moonInner tInstTz 60 - SunCalc.moonInner tInstTz 0 =
        2 * Real.pi * (k1 : ℝ) - 2 * Real.pi * (k0 : ℝ) := by
      have e1 : SunCalc.moonInner tInstTz 0 =
          SunCalc.phaseAngle tInstTz 0 + 2 * Real.pi * (k0 : ℝ) := by linarith
      have e2 : SunCalc.moonInner tInstTz 60 =
          SunCalc.phaseAngle tInstTz 60 + 2 * Real.pi * (k1 : ℝ) := by linarith
      rw [e1, e2, h]
      ring
    rw [← hdiff, this]
    ring
  have hm : ((k1 - k0 : ℤ) : ℝ) = 13.1763493865 / 8640 := by
    unfold SunCalc.toRad at heq
    have hpi : Real.pi ≠ 0 := Real.pi_ne_zero
    have h2 : Real.pi * (13.1763493865 / 180 / 24) = Real.pi * (2 * ((k1 - k0 : ℤ) : ℝ)) := by
      ring_nf
      ring_nf at heq
      linarith [heq]
    have h3 := mul_left_cancel₀ hpi h2
    linarith [h3]
  have hlb : (0 : ℝ) < ((k1 - k0 : ℤ) : ℝ) := by rw [hm]; norm_num
  have hub : ((k1 - k0 : ℤ) : ℝ) < 1 := by rw [hm]; norm_num
  have hlb2 : (0 : ℤ) < k1 - k0 := by exact_mod_cast hlb
  have hub2 : (k1 - k0 : ℤ) < 1 := by exact_mod_cast hub
  omega

/-- C4: the reference epoch of `getMoonIllumination` is the *local-time*
instant `new Date(2000, 0, 1, 12)`, not the fixed UTC instant: at the
concrete instant `tInstTz`, running with ambient offset UTC+0 versus UTC+1
(60 minutes east) yields different `phase` outputs, so the result depends on
the ambient local time zone. -/
theorem getMoonIllumination_tz_dependent :
    (SunCalc.getMoonIllumination tInstTz 0).phase ≠
      (SunCalc.getMoonIllumination tInstTz 60).phase := by
  unfold SunCalc.getMoonIllumination
  simp only
  intro h
  apply phaseAngle_tInstTz_ne
  have h2pi : (2 : ℝ) * Real.pi ≠ 0 := by positivity
  field_simp at h
  exact h

/-- C8 counterexample: `getMoonIllumination` is not a pure function of its
explicit argument alone: at the concrete instant `tInstTz` the full result
records for ambient offsets 0 and 60 minutes differ. -/
theorem getMoonIllumination_reads_ambient_tz :
    SunCalc.getMoonIllumination tInstTz 0 ≠ SunCalc.getMoonIllumination tInstTz 60 := by
  intro h
  apply phaseAngle_tInstTz_ne
  have hph := congrArg MoonIllum.phase h
  unfold SunCalc.getMoonIllumination at hph
  simp only at hph
  have h2pi : (2 : ℝ) * Real.pi ≠ 0 := by positivity
  field_simp at hph
  exact hph

/-- C8 amended: both operations are deterministic once the ambient time zone
is fixed; `getMoonIllumination` depends on its instant and the ambient offset
only through the shifted instant `t + tzMin * 60000`. -/
theorem getMoonIllumination_det_given_tz (t tzMin t2 tzMin2 : ℝ)
    (h : t + tzMin * 60000 = t2 + tzMin2 * 60000) :
    SunCalc.getMoonIllumination t tzMin = SunCalc.getMoonIllumination t2 tzMin2 := by
  have hd : SunCalc.moonD t tzMin = SunCalc.moonD t2 tzMin2 := by
    unfold SunCalc.moonD SunCalc.localNoonJan2000
    have : t - (946728000000 - tzMin * 60000) = t2 - (946728000000 - tzMin2 * 60000) := by
      linarith
    rw [this]
  unfold SunCalc.getMoonIllumination SunCalc.phaseAngle SunCalc.moonInner SunCalc.eviction
    SunCalc.moonML SunCalc.moonL2 SunCalc.moonM
  rw [hd]

/-- Witness for the amended C8 theorem at concrete inputs. -/
theorem getMoonIllumination_det_given_tz_witness :
    (0 : ℝ) + 1 * 60000 = 60000 + 0 * 60000 ∧
    SunCalc.getMoonIllumination 0 1 = SunCalc.getMoonIllumination 60000 0 :=
  ⟨by norm_num, getMoonIllumination_det_given_tz 0 1 60000 0 (by norm_num)⟩

namespace SunCalc

/-- The solar mean anomaly `M` computed by `getTimes`. -/
noncomputable def sunM (days : ℝ) : ℝ := toRad (357.5291 + 0.98560028 * days)

/-- The ecliptic longitude `L` computed by `getTimes`. -/
noncomputable def sunL (days : ℝ) : ℝ :=
  sunM days + toRad (1.9148 * Real.sin (sunM days) + 0.02 * Real.sin (2 * sunM days)) +
    toRad 282.9372

/-- The solar declination `dec` computed by `getTimes` (simplified
day-of-year approximation, as in the source). -/
noncomputable def dec (days : ℝ) : ℝ :=
  Real.arcsin (Real.sin (toRad (-23.45)) * Real.cos (toRad (360 / 365 * (days + 10))))

/-- The constant `J0` of `getTimes`. -/
def J0 : ℝ := 0.0009

/-- The approximate solar-noon Julian day `Jnoon` computed by `getTimes`
(`lw = toRad(-lng)` is inlined). -/
noncomputable def Jnoon (days lng : ℝ) : ℝ :=
  J2000 + J0 + (0.0053 * Real.sin (sunM days) - 0.0069 * Real.sin (2 * sunL days)) +
    toRad (-lng) / (2 * Real.pi)

/-- The argument passed to `Math.acos` in the hour-angle equation of the
inner `getTime` (`phi = toRad(lat)` is inlined). -/
noncomputable def acosArg (h lat days : ℝ) : ℝ :=
  (Real.sin (toRad h) - Real.sin (toRad lat) * Real.sin (dec days)) /
    (Real.cos (toRad lat) * Real.cos (dec days))

/-- The hour-angle equation has a real solution: the denominator of the
`acos` argument is nonzero and the argument lies in `[-1, 1]`.  When this
fails, `Math.acos` (or the division) produces NaN in JS. -/
def hourAngleDefined (h lat days : ℝ) : Prop :=
  Real.cos (toRad lat) * Real.cos (dec days) ≠ 0 ∧ |acosArg h lat days| ≤ 1

open Classical in
/-- Embedding of the inner `getTime` of `getTimes`.  In ECMAScript nothing in
the `try` block can throw — `Math.acos` returns NaN outside `[-1, 1]` — so
the `catch` branch returning `null` (modelled by `none`) is unreachable: the
result is always a `some` pair, with Invalid Dates when the hour-angle
equation has no solution and the NaN hour angle propagates into
`new Date(NaN)`. -/
noncomputable def getTime (h t lat lng : ℝ) : Option RiseSet :=
  if hourAngleDefined h lat (toDays t) then
    some ⟨fromJulian (Jnoon (toDays t) lng - Real.arccos (acosArg h lat (toDays t)) / (2 * Real.pi) - J0),
          fromJulian (Jnoon (toDays t) lng + Real.arccos (acosArg h lat (toDays t)) / (2 * Real.pi) + J0)⟩
  else some ⟨JSDate.invalid, JSDate.invalid⟩

/-- Embedding of `SunCalc.getTimes`: two hour-angle solves, at elevation
-0.833° (sunrise/sunset) and -18° (astronomical dawn/dusk); the `?.` optional
chaining of the source is `Option.map`. -/
noncomputable def getTimes (t lat lng : ℝ) : SunTimes :=
  { sunrise := (getTime (-0.833) t lat lng).map RiseSet.rise
    sunset := (getTime (-0.833) t lat lng).map RiseSet.set
    astronomicalDawn := (getTime (-18) t lat lng).map RiseSet.rise
    astronomicalDusk := (getTime (-18) t lat lng).map RiseSet.set }

end SunCalc

/-- Degree-level strict monotonicity of `sin ∘ toRad` on `[0°, 90°]`. -/
theorem sin_toRad_lt_sin_toRad {a b : ℝ} (ha : 0 ≤ a) (hab : a < b) (hb : b ≤ 90) :
    Real.sin (SunCalc.toRad a) < Real.sin (SunCalc.toRad b) := by
  have hpi : (0 : ℝ) < Real.pi := Real.pi_pos
  have h180 : (0 : ℝ) < Real.pi / 180 := by positivity
  have hta : SunCalc.toRad a = a * (Real.pi / 180) := by unfold SunCalc.toRad; ring
  have htb : SunCalc.toRad b = b * (Real.pi / 180) := by unfold SunCalc.toRad; ring
  have hmem_a : SunCalc.toRad a ∈ Set.Icc (-(Real.pi / 2)) (Real.pi / 2) := by
    constructor
    · rw [hta]; nlinarith
    · rw [hta]; nlinarith
  have hmem_b : SunCalc.toRad b ∈ Set.Icc (-(Real.pi / 2)) (Real.pi / 2) := by
    constructor
    · rw [htb]; nlinarith
    · rw [htb]; nlinarith
  exact Real.strictMonoOn_sin hmem_a hmem_b
    (by rw [hta, htb]; exact mul_lt_mul_of_pos_right hab h180)

theorem sin_toRad_pos {a : ℝ} (h0 : 0 < a) (h90 : a ≤ 90) :
    0 < Real.sin (SunCalc.toRad a) := by
  have h := sin_toRad_lt_sin_toRad (le_refl 0) h0 h90
  have hz : SunCalc.toRad 0 = 0 := by unfold SunCalc.toRad; ring
  rwa [hz, Real.sin_zero] at h

theorem toDays_inputA : SunCalc.toDays 953748000000 = 81.25 := by
  unfold SunCalc.toDays SunCalc.toJulian SunCalc.J1970 SunCalc.J2000 SunCalc.dayMs
  norm_num

/-- At `days = 81.25` the day-of-year declination argument is exactly 90°, so
the declination is `asin (sin(-23.45°) * cos 90°) = asin 0 = 0`. -/
theorem dec_inputA : SunCalc.dec 81.25 = 0 := by
  unfold SunCalc.dec
  have h90 : SunCalc.toRad (360 / 365 * (81.25 + 10)) = Real.pi / 2 := by
    unfold SunCalc.toRad
    ring
  rw [h90, Real.cos_pi_div_two, mul_zero, Real.arcsin_zero]

/-- `cos (toRad 89.5)` equals `sin (toRad 0.5)` (co-function identity). -/
theorem cos_toRad_895 : Real.cos (SunCalc.toRad 89.5) = Real.sin (SunCalc.toRad 0.5) := by
  have h : SunCalc.toRad 0.5 = Real.pi / 2 - SunCalc.toRad 89.5 := by
    unfold SunCalc.toRad; ring
  rw [h, Real.sin_pi_div_two_sub]

/-- The `acos` argument at the circumpolar input: latitude 89.5°, declination
0, elevation `h`: it reduces to `sin (toRad h) / sin (toRad 0.5)`. -/
theorem acosArg_inputA (h : ℝ) :
    SunCalc.acosArg h 89.5 81.25 = Real.sin (SunCalc.toRad h) / Real.sin (SunCalc.toRad 0.5) := by
  unfold SunCalc.acosArg
  rw [dec_inputA, Real.sin_zero, Real.cos_zero, cos_toRad_895]
  ring_nf

theorem abs_acosArg_gt_one_inputA {e : ℝ} (he05 : 0.5 < e) (he90 : e ≤ 90) :
    1 < |SunCalc.acosArg (-e) 89.5 81.25| := by
  have hb : 0 < Real.sin (SunCalc.toRad 0.5) := sin_toRad_pos (by norm_num) (by norm_num)
  have hlt : Real.sin (SunCalc.toRad 0.5) < Real.sin (SunCalc.toRad e) :=
    sin_toRad_lt_sin_toRad (by norm_num) he05 he90
  have hneg : SunCalc.toRad (-e) = -SunCalc.toRad e := by unfold SunCalc.toRad; ring
  rw [acosArg_inputA, hneg, Real.sin_neg, abs_div, abs_neg,
    abs_of_pos (lt_trans hb hlt), abs_of_pos hb]
  exact (one_lt_div hb).mpr hlt

theorem notDefined_inputA_sunrise :
    ¬ SunCalc.hourAngleDefined (-0.833) 89.5 (SunCalc.toDays 953748000000) := by
  rw [toDays_inputA]
  intro hd
  have := abs_acosArg_gt_one_inputA (e := 0.833) (by norm_num) (by norm_num)
  have habs := hd.2
  norm_num at this habs
  linarith

theorem notDefined_inputA_astro :
    ¬ SunCalc.hourAngleDefined (-18) 89.5 (SunCalc.toDays 953748000000) := by
  rw [toDays_inputA]
  intro hd
  have := abs_acosArg_gt_one_inputA (e := 18) (by norm_num) (by norm_num)
  have habs := hd.2
  norm_num at this habs
  linarith

/-- C1: at the concrete circumpolar input (instant 953748000000 ms ≈
2000-03-22T12:00Z, latitude 89.5°, longitude 0°) the hour-angle equation has
no solution for both elevation angles, yet `getTimes` does *not* report the
rise/set instants as absent: all four fields are present and hold Invalid
(NaN-valued) Dates.  (No exception is raised — `Math.acos` returns NaN — but
the absent-value representation promised by the spec never occurs.) -/
theorem getTimes_circumpolar_invalid_not_absent :
    SunCalc.getTimes 953748000000 89.5 0 =
      ⟨some JSDate.invalid, some JSDate.invalid, some JSDate.invalid, some JSDate.invalid⟩ := by
  unfold SunCalc.getTimes SunCalc.getTime
  rw [if_neg notDefined_inputA_sunrise, if_neg notDefined_inputA_astro]
  rfl

/-- C9: for every finite instant, latitude and longitude, all four fields of
the `getTimes` result are present (`some`): the `catch` branch that would
yield an absent field is unreachable because `Math.acos` is total and returns
NaN outside `[-1, 1]`; and whenever the hour-angle equation for an elevation
angle has no solution, the corresponding fields hold Invalid (NaN-valued)
Dates rather than being absent. -/
theorem getTimes_fields_always_present (t lat lng : ℝ) :
    ((SunCalc.getTimes t lat lng).sunrise.isSome ∧
     (SunCalc.getTimes t lat lng).sunset.isSome ∧
     (SunCalc.getTimes t lat lng).astronomicalDawn.isSome ∧
     (SunCalc.getTimes t lat lng).astronomicalDusk.isSome) ∧
    (¬ SunCalc.hourAngleDefined (-0.833) lat (SunCalc.toDays t) →
      (SunCalc.getTimes t lat lng).sunrise = some JSDate.invalid ∧
      (SunCalc.getTimes t lat lng).sunset = some JSDate.invalid) ∧
    (¬ SunCalc.hourAngleDefined (-18) lat (SunCalc.toDays t) →
      (SunCalc.getTimes t lat lng).astronomicalDawn = some JSDate.invalid ∧
      (SunCalc.getTimes t lat lng).astronomicalDusk = some JSDate.invalid) := by
  unfold SunCalc.getTimes SunCalc.getTime
  refine ⟨⟨?_, ?_, ?_, ?_⟩, ?_, ?_⟩ <;>
    first
      | (split_ifs <;> rfl)
      | (intro hnd
         rw [if_neg hnd]
         exact ⟨rfl, rfl⟩)

/-- Witness for C9 at the concrete circumpolar input: both hour-angle
hypotheses are discharged and the fields are present Invalid Dates. -/
theorem getTimes_fields_always_present_witness :
    ¬ SunCalc.hourAngleDefined (-0.833) 89.5 (SunCalc.toDays 953748000000) ∧
    ¬ SunCalc.hourAngleDefined (-18) 89.5 (SunCalc.toDays 953748000000) ∧
    ((SunCalc.getTimes 953748000000 89.5 0).sunrise = some JSDate.invalid ∧
     (SunCalc.getTimes 953748000000 89.5 0).sunset = some JSDate.invalid) ∧
    ((SunCalc.getTimes 953748000000 89.5 0).astronomicalDawn = some JSDate.invalid ∧
     (SunCalc.getTimes 953748000000 89.5 0).astronomicalDusk = some JSDate.invalid) :=
  ⟨notDefined_inputA_sunrise, notDefined_inputA_astro,
   (getTimes_fields_always_present 953748000000 89.5 0).2.1 notDefined_inputA_sunrise,
   (getTimes_fields_always_present 953748000000 89.5 0).2.2 notDefined_inputA_astro⟩

theorem sin_le_self_of_nonneg {x : ℝ} (h : 0 ≤ x) : Real.sin x ≤ x := by
  rcases eq_or_lt_of_le h with h0 | h0
  · rw [← h0, Real.sin_zero]
  · exact le_of_lt (Real.sin_lt h0)

/-- Quartic-remainder lower bound for `sin` on an interval `[lo, hi] ⊆ [0, 1]`. -/
theorem sin_lb_of_mem {x lo hi : ℝ} (hlo : lo ≤ x) (hhi : x ≤ hi) (h0 : 0 ≤ lo)
    (h1 : hi ≤ 1) : lo - hi ^ 3 / 6 - hi ^ 4 * (5 / 96) ≤ Real.sin x := by
  have hx0 : 0 ≤ x := le_trans h0 hlo
  have habs : |x| ≤ 1 := by rw [abs_of_nonneg hx0]; linarith
  have hb := Real.sin_bound habs
  have hb2 : Real.sin x ≥ x - x ^ 3 / 6 - |x| ^ 4 * (5 / 96) := by
    have := abs_le.mp hb
    linarith [this.1]
  have h3 : x ^ 3 ≤ hi ^ 3 := pow_le_pow_left hx0 hhi 3
  have h4 : |x| ^ 4 ≤ hi ^ 4 := by
    rw [abs_of_nonneg hx0]
    exact pow_le_pow_left hx0 hhi 4
  linarith

/-- Quartic-remainder lower bound for `cos` on an interval `[0, hi] ⊆ [0, 1]`. -/
theorem cos_lb_of_mem {x hi : ℝ} (hx0 : 0 ≤ x) (hhi : x ≤ hi) (h1 : hi ≤ 1) :
    1 - hi ^ 2 / 2 - hi ^ 4 * (5 / 96) ≤ Real.cos x := by
  have habs : |x| ≤ 1 := by rw [abs_of_nonneg hx0]; linarith
  have hb := Real.cos_bound habs
  have hb2 : Real.cos x ≥ 1 - x ^ 2 / 2 - |x| ^ 4 * (5 / 96) := by
    have := abs_le.mp hb
    linarith [this.1]
  have h2 : x ^ 2 ≤ hi ^ 2 := pow_le_pow_left hx0 hhi 2
  have h4 : |x| ^ 4 ≤ hi ^ 4 := by
    rw [abs_of_nonneg hx0]
    exact pow_le_pow_left hx0 hhi 4
  linarith

/-- Quartic-remainder upper bound for `cos` on an interval `[lo, hi] ⊆ [0, 1]`. -/
theorem cos_ub_of_mem {x lo hi : ℝ} (hlo : lo ≤ x) (hhi : x ≤ hi) (h0 : 0 ≤ lo)
    (h1 : hi ≤ 1) : Real.cos x ≤ 1 - lo ^ 2 / 2 + hi ^ 4 * (5 / 96) := by
  have hx0 : 0 ≤ x := le_trans h0 hlo
  have habs : |x| ≤ 1 := by rw [abs_of_nonneg hx0]; linarith
  have hb := Real.cos_bound habs
  have hb2 : Real.cos x ≤ 1 - x ^ 2 / 2 + |x| ^ 4 * (5 / 96) := by
    have := abs_le.mp hb
    linarith [this.2]
  have h2 : lo ^ 2 ≤ x ^ 2 := pow_le_pow_left h0 hlo 2
  have h4 : |x| ^ 4 ≤ hi ^ 4 := by
    rw [abs_of_nonneg hx0]
    exact pow_le_pow_left hx0 hhi 4
  linarith

theorem toRad_neg (x : ℝ) : SunCalc.toRad (-x) = -SunCalc.toRad x := by
  unfold SunCalc.toRad
  ring

/-- Numeric bounds for `toRad 23.45` (the obliquity constant in radians). -/
theorem toRad_2345_bounds :
    0.4092796 ≤ SunCalc.toRad 23.45 ∧ SunCalc.toRad 23.45 ≤ 0.40928 := by
  unfold SunCalc.toRad
  constructor
  · nlinarith [Real.pi_gt_d6]
  · nlinarith [Real.pi_lt_d6]

theorem sin_toRad_2345_bounds :
    0.3963 ≤ Real.sin (SunCalc.toRad 23.45) ∧ Real.sin (SunCalc.toRad 23.45) ≤ 0.40928 := by
  obtain ⟨hlo, hhi⟩ := toRad_2345_bounds
  constructor
  · have := sin_lb_of_mem hlo hhi (by norm_num) (by norm_num)
    nlinarith
  · calc Real.sin (SunCalc.toRad 23.45) ≤ SunCalc.toRad 23.45 :=
        sin_le_self_of_nonneg (by linarith)
      _ ≤ 0.40928 := hhi

theorem cos_toRad_2345_bounds :
    0.9147 ≤ Real.cos (SunCalc.toRad 23.45) ∧ Real.cos (SunCalc.toRad 23.45) ≤ 0.9178 := by
  obtain ⟨hlo, hhi⟩ := toRad_2345_bounds
  constructor
  · have := cos_lb_of_mem (by linarith) hhi (by norm_num)
    nlinarith
  · have := cos_ub_of_mem hlo hhi (by norm_num) (by norm_num)
    nlinarith

/-- The declination of the simplified model satisfies
`sin (dec days) = sin (toRad (-23.45)) * cos (toRad (360/365 * (days + 10)))`. -/
theorem sin_dec_eq (days : ℝ) :
    Real.sin (SunCalc.dec days) =
      Real.sin (SunCalc.toRad (-23.45)) * Real.cos (SunCalc.toRad (360 / 365 * (days + 10))) := by
  unfold SunCalc.dec
  have h1 : |Real.sin (SunCalc.toRad (-23.45)) * Real.cos (SunCalc.toRad (360 / 365 * (days + 10)))| ≤ 1 := by
    rw [abs_mul]
    calc |Real.sin (SunCalc.toRad (-23.45))| * |Real.cos (SunCalc.toRad (360 / 365 * (days + 10)))| ≤ 1 * 1 :=
        mul_le_mul (Real.abs_sin_le_one _) (Real.abs_cos_le_one _)
          (abs_nonneg _) (by norm_num)
      _ = 1 := by norm_num
  have h2 := abs_le.mp h1
  exact Real.sin_arcsin h2.1 h2.2

/-- The magnitude of `sin (dec days)` never exceeds `sin (toRad 23.45)`. -/
theorem abs_sin_dec_le (days : ℝ) :
    |Real.sin (SunCalc.dec days)| ≤ Real.sin (SunCalc.toRad 23.45) := by
  rw [sin_dec_eq, abs_mul, toRad_neg, Real.sin_neg, abs_neg]
  have hs : 0 ≤ Real.sin (SunCalc.toRad 23.45) := by
    have := sin_toRad_2345_bounds.1
    linarith
  rw [abs_of_nonneg hs]
  calc Real.sin (SunCalc.toRad 23.45) * |Real.cos (SunCalc.toRad (360 / 365 * (days + 10)))| ≤
      Real.sin (SunCalc.toRad 23.45) * 1 :=
        mul_le_mul_of_nonneg_left (Real.abs_cos_le_one _) hs
    _ = Real.sin (SunCalc.toRad 23.45) := by ring

/-- `cos (dec days)` is at least `cos (toRad 23.45)`, hence positive. -/
theorem cos_dec_ge (days : ℝ) :
    Real.cos (SunCalc.toRad 23.45) ≤ Real.cos (SunCalc.dec days) := by
  unfold SunCalc.dec
  rw [Real.cos_arcsin]
  have habs := abs_sin_dec_le days
  rw [sin_dec_eq] at habs
  have hsq : (Real.sin (SunCalc.toRad (-23.45)) * Real.cos (SunCalc.toRad (360 / 365 * (days + 10)))) ^ 2 ≤
      Real.sin (SunCalc.toRad 23.45) ^ 2 := by
    have h0 : 0 ≤ Real.sin (SunCalc.toRad 23.45) := by
      have := sin_toRad_2345_bounds.1
      linarith
    nlinarith [abs_nonneg (Real.sin (SunCalc.toRad (-23.45)) * Real.cos (SunCalc.toRad (360 / 365 * (days + 10)))),
      sq_abs (Real.sin (SunCalc.toRad (-23.45)) * Real.cos (SunCalc.toRad (360 / 365 * (days + 10))))]
  have h1 : Real.sin (SunCalc.toRad 23.45) ^ 2 + Real.cos (SunCalc.toRad 23.45) ^ 2 = 1 :=
    Real.sin_sq_add_cos_sq _
  calc Real.cos (SunCalc.toRad 23.45)
      = Real.sqrt (Real.cos (SunCalc.toRad 23.45) ^ 2) := by
        rw [Real.sqrt_sq]
        have := cos_toRad_2345_bounds.1
        linarith
    _ ≤ Real.sqrt (1 - (Real.sin (SunCalc.toRad (-23.45)) * Real.cos (SunCalc.toRad (360 / 365 * (days + 10)))) ^ 2) := by
        apply Real.sqrt_le_sqrt
        linarith

theorem toDays_inputB : SunCalc.toDays 961632000000 = 172.5 := by
  unfold SunCalc.toDays SunCalc.toJulian SunCalc.J1970 SunCalc.J2000 SunCalc.dayMs
  norm_num

/-- At `days = 172.5` (late June) the day-of-year declination argument is
exactly 180°, so the declination is `asin (sin (toRad 23.45)) = toRad 23.45`:
the summer-solstice maximum. -/
theorem dec_inputB : SunCalc.dec 172.5 = SunCalc.toRad 23.45 := by
  unfold SunCalc.dec
  have h180 : SunCalc.toRad (360 / 365 * (172.5 + 10)) = Real.pi := by
    unfold SunCalc.toRad
    ring
  rw [h180, Real.cos_pi, toRad_neg, Real.sin_neg]
  have hprod : -Real.sin (SunCalc.toRad 23.45) * (-1) = Real.sin (SunCalc.toRad 23.45) := by
    ring
  rw [hprod]
  obtain ⟨hlo, hhi⟩ := toRad_2345_bounds
  apply Real.arcsin_sin
  · nlinarith [Real.pi_gt_d6]
  · nlinarith [Real.pi_gt_d6]

theorem toRad_60_eq : SunCalc.toRad 60 = Real.pi / 3 := by
  unfold SunCalc.toRad
  ring

theorem sqrt3_bounds : 1.7320508 ≤ Real.sqrt 3 ∧ Real.sqrt 3 ≤ 1.7320509 := by
  have h := Real.sq_sqrt (by norm_num : (0 : ℝ) ≤ 3)
  have hnn := Real.sqrt_nonneg 3
  constructor <;> nlinarith

theorem toRad_18_bounds : 0.3141592 ≤ SunCalc.toRad 18 ∧ SunCalc.toRad 18 ≤ 0.3141593 := by
  unfold SunCalc.toRad
  constructor
  · nlinarith [Real.pi_gt_d6]
  · nlinarith [Real.pi_lt_d6]

theorem sin_toRad_18_lb : 0.3084 ≤ Real.sin (SunCalc.toRad 18) := by
  obtain ⟨hlo, hhi⟩ := toRad_18_bounds
  have := sin_lb_of_mem hlo hhi (by norm_num) (by norm_num)
  nlinarith

/-- At latitude 60° and the summer-solstice declination, the `acos` argument
for the astronomical-twilight angle -18° lies strictly below -1: the sun
never reaches 18° below the horizon, so the hour-angle equation has no
solution. -/
theorem notDefined_inputB :
    ¬ SunCalc.hourAngleDefined (-18) 60 (SunCalc.toDays 961632000000) := by
  rw [toDays_inputB]
  intro hd
  have habs := hd.2
  have harg : SunCalc.acosArg (-18) 60 172.5 =
      (Real.sin (SunCalc.toRad (-18)) - Real.sqrt 3 / 2 * Real.sin (SunCalc.toRad 23.45)) /
        (1 / 2 * Real.cos (SunCalc.toRad 23.45)) := by
    unfold SunCalc.acosArg
    rw [dec_inputB, toRad_60_eq, Real.sin_pi_div_three, Real.cos_pi_div_three]
  obtain ⟨hc1, hc2⟩ := cos_toRad_2345_bounds
  obtain ⟨hs1, hs2⟩ := sin_toRad_2345_bounds
  obtain ⟨hq1, hq2⟩ := sqrt3_bounds
  have hden : (0 : ℝ) < 1 / 2 * Real.cos (SunCalc.toRad 23.45) := by linarith
  have hnum : Real.sin (SunCalc.toRad (-18)) - Real.sqrt 3 / 2 * Real.sin (SunCalc.toRad 23.45) ≤
      -0.6516 := by
    have h18 : Real.sin (SunCalc.toRad (-18)) = -Real.sin (SunCalc.toRad 18) := by
      rw [toRad_neg, Real.sin_neg]
    rw [h18]
    have := sin_toRad_18_lb
    nlinarith
  have hge : -(1 / 2 * Real.cos (SunCalc.toRad 23.45)) ≤
      Real.sin (SunCalc.toRad (-18)) - Real.sqrt 3 / 2 * Real.sin (SunCalc.toRad 23.45) := by
    have hmem := abs_le.mp habs
    have h1 := hmem.1
    rw [harg] at h1
    have h2 := (le_div_iff hden).mp h1
    linarith
  linarith

/-- C2 counterexample: at latitude 60° (inside the claimed ±60° band),
longitude 0 and the finite instant 961632000000 ms (2000-06-21, midsummer),
the astronomical dawn and dusk fields of `getTimes` are *not* valid instants:
they hold Invalid (NaN-valued) Dates, because the -18° hour-angle equation
has no solution (astronomical twilight never ends at 60°N in late June). -/
theorem getTimes_lat60_midsummer_astro_invalid :
    (SunCalc.getTimes 961632000000 60 0).astronomicalDawn = some JSDate.invalid ∧
    (SunCalc.getTimes 961632000000 60 0).astronomicalDusk = some JSDate.invalid := by
  have hB : SunCalc.getTime (-18) 961632000000 60 0 =
      some ⟨JSDate.invalid, JSDate.invalid⟩ := by
    unfold SunCalc.getTime
    rw [if_neg notDefined_inputB]
  unfold SunCalc.getTimes
  rw [hB]
  exact ⟨rfl, rfl⟩

theorem toRad_mem_midlat {lat : ℝ} (h1 : -60 ≤ lat) (h2 : lat ≤ 60) :
    -(Real.pi / 3) ≤ SunCalc.toRad lat ∧ SunCalc.toRad lat ≤ Real.pi / 3 := by
  unfold SunCalc.toRad
  have hpi := Real.pi_pos
  constructor <;> nlinarith

/-- At latitudes within ±60°, `cos (toRad lat)` is at least `1/2`. -/
theorem cos_toRad_ge_half {lat : ℝ} (h1 : -60 ≤ lat) (h2 : lat ≤ 60) :
    1 / 2 ≤ Real.cos (SunCalc.toRad lat) := by
  obtain ⟨hlo, hhi⟩ := toRad_mem_midlat h1 h2
  have hpi := Real.pi_pos
  have habs : |SunCalc.toRad lat| ≤ Real.pi / 3 := abs_le.mpr ⟨hlo, hhi⟩
  have h3 : Real.cos (Real.pi / 3) ≤ Real.cos |SunCalc.toRad lat| :=
    Real.cos_le_cos_of_nonneg_of_le_pi (abs_nonneg _) (by linarith) habs
  rw [Real.cos_abs] at h3
  rw [Real.cos_pi_div_three] at h3
  exact h3

/-- At latitudes within ±60°, `|sin (toRad lat)|` is at most `sin (π/3)`. -/
theorem abs_sin_toRad_midlat {lat : ℝ} (h1 : -60 ≤ lat) (h2 : lat ≤ 60) :
    |Real.sin (SunCalc.toRad lat)| ≤ Real.sin (Real.pi / 3) := by
  obtain ⟨hlo, hhi⟩ := toRad_mem_midlat h1 h2
  have hpi := Real.pi_pos
  have hmem : SunCalc.toRad lat ∈ Set.Icc (-(Real.pi / 2)) (Real.pi / 2) :=
    ⟨by linarith, by linarith⟩
  have hmem3 : Real.pi / 3 ∈ Set.Icc (-(Real.pi / 2)) (Real.pi / 2) :=
    ⟨by linarith, by linarith⟩
  have hmem3n : -(Real.pi / 3) ∈ Set.Icc (-(Real.pi / 2)) (Real.pi / 2) :=
    ⟨by linarith, by linarith⟩
  have hub : Real.sin (SunCalc.toRad lat) ≤ Real.sin (Real.pi / 3) :=
    Real.strictMonoOn_sin.monotoneOn hmem hmem3 hhi
  have hlb : Real.sin (-(Real.pi / 3)) ≤ Real.sin (SunCalc.toRad lat) :=
    Real.strictMonoOn_sin.monotoneOn hmem3n hmem hlo
  rw [Real.sin_neg] at hlb
  exact abs_le.mpr ⟨by linarith, hub⟩

theorem sin_pi_div_three_ub : Real.sin (Real.pi / 3) ≤ 0.8660255 := by
  rw [Real.sin_pi_div_three]
  have := sqrt3_bounds.2
  linarith

/-- At latitudes within ±60° the hour-angle equation for the sunrise angle
-0.833° always has a solution: the denominator is positive and the `acos`
argument lies within `[-1, 1]`. -/
theorem hourAngleDefined_midlat {lat : ℝ} (h1 : -60 ≤ lat) (h2 : lat ≤ 60) (days : ℝ) :
    SunCalc.hourAngleDefined (-0.833) lat days ∧
    0 < Real.cos (SunCalc.toRad lat) * Real.cos (SunCalc.dec days) := by
  obtain ⟨hc1, hc2⟩ := cos_toRad_2345_bounds
  obtain ⟨hs1, hs2⟩ := sin_toRad_2345_bounds
  have hcosphi := cos_toRad_ge_half h1 h2
  have hcosdec := cos_dec_ge days
  have hsindec := abs_sin_dec_le days
  have hsinphi := le_trans (abs_sin_toRad_midlat h1 h2) sin_pi_div_three_ub
  have hden : 0 < Real.cos (SunCalc.toRad lat) * Real.cos (SunCalc.dec days) := by
    nlinarith
  refine ⟨⟨ne_of_gt hden, ?_⟩, hden⟩
  unfold SunCalc.acosArg
  rw [abs_div, abs_of_pos hden, div_le_one hden]
  have h833 : |Real.sin (SunCalc.toRad (-0.833))| ≤ 0.01454 := by
    rw [toRad_neg, Real.sin_neg, abs_neg]
    have hnn : 0 ≤ Real.sin (SunCalc.toRad 0.833) := by
      apply Real.sin_nonneg_of_nonneg_of_le_pi
      · unfold SunCalc.toRad
        have := Real.pi_pos
        nlinarith
      · unfold SunCalc.toRad
        have := Real.pi_gt_d6
        nlinarith
    rw [abs_of_nonneg hnn]
    calc Real.sin (SunCalc.toRad 0.833) ≤ SunCalc.toRad 0.833 := by
          apply sin_le_self_of_nonneg
          unfold SunCalc.toRad
          have := Real.pi_pos
          nlinarith
      _ ≤ 0.01454 := by
          unfold SunCalc.toRad
          have := Real.pi_lt_d6
          nlinarith
  have htri : |Real.sin (SunCalc.toRad (-0.833)) -
      Real.sin (SunCalc.toRad lat) * Real.sin (SunCalc.dec days)| ≤
      |Real.sin (SunCalc.toRad (-0.833))| +
        |Real.sin (SunCalc.toRad lat)| * |Real.sin (SunCalc.dec days)| := by
    calc |Real.sin (SunCalc.toRad (-0.833)) -
        Real.sin (SunCalc.toRad lat) * Real.sin (SunCalc.dec days)| ≤
        |Real.sin (SunCalc.toRad (-0.833))| +
          |Real.sin (SunCalc.toRad lat) * Real.sin (SunCalc.dec days)| := abs_sub _ _
      _ = |Real.sin (SunCalc.toRad (-0.833))| +
          |Real.sin (SunCalc.toRad lat)| * |Real.sin (SunCalc.dec days)| := by
          rw [abs_mul]
  have hprod : |Real.sin (SunCalc.toRad lat)| * |Real.sin (SunCalc.dec days)| ≤
      0.8660255 * 0.40928 := by
    apply mul_le_mul hsinphi (le_trans hsindec hs2) (abs_nonneg _) (by norm_num)
  nlinarith [htri, hprod, h833]

theorem fromJulianMs_lt {a b : ℝ} (hab : a < b) :
    SunCalc.fromJulianMs a < SunCalc.fromJulianMs b := by
  unfold SunCalc.fromJulianMs SunCalc.dayMs SunCalc.J1970
  nlinarith

theorem getTime_eq_of_defined {h t lat : ℝ} (lng : ℝ)
    (hd : SunCalc.hourAngleDefined h lat (SunCalc.toDays t)) :
    SunCalc.getTime h t lat lng = some
      ⟨JSDate.valid (SunCalc.fromJulianMs (SunCalc.Jnoon (SunCalc.toDays t) lng -
          Real.arccos (SunCalc.acosArg h lat (SunCalc.toDays t)) / (2 * Real.pi) - SunCalc.J0)),
       JSDate.valid (SunCalc.fromJulianMs (SunCalc.Jnoon (SunCalc.toDays t) lng +
          Real.arccos (SunCalc.acosArg h lat (SunCalc.toDays t)) / (2 * Real.pi) + SunCalc.J0))⟩ := by
  unfold SunCalc.getTime SunCalc.fromJulian
  rw [if_pos hd]

/-- When both hour angles exist at a mid latitude, the -18° hour angle is
strictly larger than the -0.833° hour angle. -/
theorem arccos_midlat_lt {lat days : ℝ} (h1 : -60 ≤ lat) (h2 : lat ≤ 60)
    (hd18 : SunCalc.hourAngleDefined (-18) lat days) :
    Real.arccos (SunCalc.acosArg (-0.833) lat days) <
      Real.arccos (SunCalc.acosArg (-18) lat days) := by
  obtain ⟨hd833, hden⟩ := hourAngleDefined_midlat h1 h2 days
  have hnum : Real.sin (SunCalc.toRad (-18)) < Real.sin (SunCalc.toRad (-0.833)) := by
    have := sin_toRad_lt_sin_toRad (a := 0.833) (b := 18) (by norm_num) (by norm_num) (by norm_num)
    rw [toRad_neg, toRad_neg, Real.sin_neg, Real.sin_neg]
    linarith
  have harg : SunCalc.acosArg (-18) lat days < SunCalc.acosArg (-0.833) lat days := by
    unfold SunCalc.acosArg
    exact (div_lt_div_right hden).mpr (by linarith)
  have hmem18 : SunCalc.acosArg (-18) lat days ∈ Set.Icc (-1 : ℝ) 1 := by
    have := abs_le.mp hd18.2
    exact ⟨this.1, this.2⟩
  have hmem833 : SunCalc.acosArg (-0.833) lat days ∈ Set.Icc (-1 : ℝ) 1 := by
    have := abs_le.mp hd833.2
    exact ⟨this.1, this.2⟩
  exact Real.strictAntiOn_arccos hmem18 hmem833 harg

/-- C2 amended: for every finite instant and latitude within ±60°, `getTimes`
always returns valid sunrise and sunset instants with `sunrise < sunset`; and
*whenever* the -18° hour-angle equation has a solution (which can fail inside
±60°, e.g. at 60°N in midsummer), the astronomical dawn/dusk instants are
valid as well and satisfy `astronomicalDawn < sunrise` and
`sunset < astronomicalDusk`. -/
theorem getTimes_midlat_ordering (t lat lng : ℝ) (h1 : -60 ≤ lat) (h2 : lat ≤ 60) :
    ∃ rs ss : ℝ,
      (SunCalc.getTimes t lat lng).sunrise = some (JSDate.valid rs) ∧
      (SunCalc.getTimes t lat lng).sunset = some (JSDate.valid ss) ∧
      rs < ss ∧
      (SunCalc.hourAngleDefined (-18) lat (SunCalc.toDays t) →
        ∃ da du : ℝ,
          (SunCalc.getTimes t lat lng).astronomicalDawn = some (JSDate.valid da) ∧
          (SunCalc.getTimes t lat lng).astronomicalDusk = some (JSDate.valid du) ∧
          da < rs ∧ ss < du) := by
  have hd833 := (hourAngleDefined_midlat h1 h2 (SunCalc.toDays t)).1
  have hrs := getTime_eq_of_defined lng hd833
  have h2pi : (0 : ℝ) < 2 * Real.pi := by positivity
  have hw1 : 0 ≤ Real.arccos (SunCalc.acosArg (-0.833) lat (SunCalc.toDays t)) / (2 * Real.pi) :=
    div_nonneg (Real.arccos_nonneg _) (le_of_lt h2pi)
  have hJ0 : SunCalc.J0 = 0.0009 := rfl
  refine ⟨SunCalc.fromJulianMs (SunCalc.Jnoon (SunCalc.toDays t) lng -
      Real.arccos (SunCalc.acosArg (-0.833) lat (SunCalc.toDays t)) / (2 * Real.pi) - SunCalc.J0),
    SunCalc.fromJulianMs (SunCalc.Jnoon (SunCalc.toDays t) lng +
      Real.arccos (SunCalc.acosArg (-0.833) lat (SunCalc.toDays t)) / (2 * Real.pi) + SunCalc.J0),
    ?_, ?_, ?_, ?_⟩
  · unfold SunCalc.getTimes
    rw [hrs]
    rfl
  · unfold SunCalc.getTimes
    rw [hrs]
    rfl
  · apply fromJulianMs_lt
    rw [hJ0]
    linarith
  · intro hd18
    have hda := getTime_eq_of_defined lng hd18
    have hwlt := arccos_midlat_lt h1 h2 hd18
    have hwdiv : Real.arccos (SunCalc.acosArg (-0.833) lat (SunCalc.toDays t)) / (2 * Real.pi) <
        Real.arccos (SunCalc.acosArg (-18) lat (SunCalc.toDays t)) / (2 * Real.pi) :=
      (div_lt_div_right h2pi).mpr hwlt
    refine ⟨SunCalc.fromJulianMs (SunCalc.Jnoon (SunCalc.toDays t) lng -
        Real.arccos (SunCalc.acosArg (-18) lat (SunCalc.toDays t)) / (2 * Real.pi) - SunCalc.J0),
      SunCalc.fromJulianMs (SunCalc.Jnoon (SunCalc.toDays t) lng +
        Real.arccos (SunCalc.acosArg (-18) lat (SunCalc.toDays t)) / (2 * Real.pi) + SunCalc.J0),
      ?_, ?_, ?_, ?_⟩
    · unfold SunCalc.getTimes
      rw [hda]
      rfl
    · unfold SunCalc.getTimes
      rw [hda]
      rfl
    · apply fromJulianMs_lt
      linarith
    · apply fromJulianMs_lt
      linarith

/-- Witness for the amended C2 theorem at the equator (latitude 0). -/
theorem getTimes_midlat_ordering_witness :
    ((-60 : ℝ) ≤ 0 ∧ (0 : ℝ) ≤ 60) ∧
    (∃ rs ss : ℝ,
      (SunCalc.getTimes 0 0 0).sunrise = some (JSDate.valid rs) ∧
      (SunCalc.getTimes 0 0 0).sunset = some (JSDate.valid ss) ∧
      rs < ss ∧
      (SunCalc.hourAngleDefined (-18) 0 (SunCalc.toDays 0) →
        ∃ da du : ℝ,
          (SunCalc.getTimes 0 0 0).astronomicalDawn = some (JSDate.valid da) ∧
          (SunCalc.getTimes 0 0 0).astronomicalDusk = some (JSDate.valid du) ∧
          da < rs ∧ ss < du)) :=
  ⟨⟨by norm_num, by norm_num⟩,
   getTimes_midlat_ordering 0 0 0 (by norm_num) (by norm_num)⟩
